/-
Verification of the auth core of concourse/passport (the `atc/auth`
authentication/authorization layer): CSRF-protected OAuth begin/callback,
signed session tokens, verifier composition, request-scoped identity
propagation, and the team authorization decision.

Shallow embedding: pure Go functions become Lean functions; the HTTP
handlers become functions from a request value to a response value that
records the status code, the cookies set, the body written, the redirect
location, and (for the callback) how many times the provider's Exchange
operation was invoked.  Machine integers are modelled by Nat/Int; time is
modelled as a Unix timestamp in seconds.
-/
import Mathlib

set_option maxRecDepth 10000

/-! ## OAuth state: JSON marshalling and base64url (from oauth_begin_handler.go)

`OAuthState` is the CSRF state struct with the single JSON field
`redirect`.  The begin handler marshals it with Go's encoding/json
(which HTML-escapes the characters <, >, & and the separators U+2028/U+2029,
uses short escapes for quote, backslash, newline, carriage return and tab,
and hex escapes for the remaining control characters) and then encodes the
UTF-8 bytes with base64.RawURLEncoding (no padding). -/

structure OAuthState where
  redirect : String
deriving DecidableEq

def hexDigitChar (n : Nat) : Char :=
  "0123456789abcdef".data.getD n '0'

/-- One character of Go json.Marshal string escaping (HTML-escaping encoder). -/
def jsonEscapeChar (c : Char) : String :=
  if c = '"' then "\\\""
  else if c = '\\' then "\\\\"
  else if c = '\n' then "\\n"
  else if c = '\r' then "\\r"
  else if c = '\t' then "\\t"
  else if c = '<' ∨ c = '>' ∨ c = '&' then
    "\\u00" ++ String.mk [hexDigitChar (c.toNat / 16), hexDigitChar (c.toNat % 16)]
  else if c.toNat < 0x20 then
    "\\u00" ++ String.mk [hexDigitChar (c.toNat / 16), hexDigitChar (c.toNat % 16)]
  else if c.toNat = 0x2028 ∨ c.toNat = 0x2029 then
    "\\u202" ++ String.mk [hexDigitChar (c.toNat % 16)]
  else String.singleton c

/-- Go json.Marshal of OAuthState (struct with one string field tagged
`redirect`); this never fails, so the 500 marshal-error branch of the begin
handler is unreachable. -/
def jsonMarshalOAuthState (st : OAuthState) : String :=
  "\x7b\"redirect\":\"" ++ String.join (st.redirect.data.map jsonEscapeChar) ++ "\"\x7d"

/-- UTF-8 encoding of one Unicode scalar value. -/
def utf8EncodeChar (c : Char) : List Nat :=
  let n := c.toNat
  if n < 0x80 then [n]
  else if n < 0x800 then [0xC0 + n / 64, 0x80 + n % 64]
  else if n < 0x10000 then [0xE0 + n / 4096, 0x80 + (n / 64) % 64, 0x80 + n % 64]
  else [0xF0 + n / 262144, 0x80 + (n / 4096) % 64, 0x80 + (n / 64) % 64, 0x80 + n % 64]

def utf8Encode (s : String) : List Nat :=
  (s.data.map utf8EncodeChar).flatten

def base64UrlChars : List Char :=
  "ABCDEFGHIJKLMNOPQRSTUVWXYZabcdefghijklmnopqrstuvwxyz0123456789-_".data

def b64Char (n : Nat) : Char := base64UrlChars.getD n 'A'

/-- base64.RawURLEncoding.EncodeToString: URL-safe alphabet, no padding. -/
def base64RawUrlEncode : List Nat → String
  | [] => ""
  | [b1] => String.mk [b64Char (b1 / 4), b64Char (b1 % 4 * 16)]
  | [b1, b2] =>
    String.mk [b64Char (b1 / 4), b64Char (b1 % 4 * 16 + b2 / 16), b64Char (b2 % 16 * 4)]
  | b1 :: b2 :: b3 :: rest =>
    String.mk [b64Char (b1 / 4), b64Char (b1 % 4 * 16 + b2 / 16),
      b64Char (b2 % 16 * 4 + b3 / 64), b64Char (b3 % 64)] ++ base64RawUrlEncode rest

/-- The encoded CSRF state: base64url (no padding) of the JSON-marshalled
OAuthState, exactly as computed by OAuthBeginHandler.ServeHTTP. -/
def encodeOAuthState (st : OAuthState) : String :=
  base64RawUrlEncode (utf8Encode (jsonMarshalOAuthState st))

/-! ## Decoding the state (callback side)

base64.RawURLEncoding.DecodeString, UTF-8 decoding, and a JSON parse of the
exact object shape produced by `jsonMarshalOAuthState`. -/

def base64UrlDecodeChar (c : Char) : Option Nat :=
  if 'A' ≤ c ∧ c ≤ 'Z' then some (c.toNat - 65)
  else if 'a' ≤ c ∧ c ≤ 'z' then some (c.toNat - 97 + 26)
  else if '0' ≤ c ∧ c ≤ '9' then some (c.toNat - 48 + 52)
  else if c = '-' then some 62
  else if c = '_' then some 63
  else none

def base64RawUrlDecodeVals : List Nat → Option (List Nat)
  | [] => some []
  | [_] => none
  | [a, b] => some [a * 4 + b / 16]
  | [a, b, c] => some [a * 4 + b / 16, b % 16 * 16 + c / 4]
  | a :: b :: c :: d :: rest =>
    (fun t => (a * 4 + b / 16) :: (b % 16 * 16 + c / 4) :: (c % 4 * 64 + d) :: t) <$>
      base64RawUrlDecodeVals rest

def base64RawUrlDecode (s : String) : Option (List Nat) := do
  let vals ← s.data.mapM base64UrlDecodeChar
  base64RawUrlDecodeVals vals

def utf8Decode : List Nat → Option (List Char)
  | [] => some []
  | b :: rest =>
    if b < 0x80 then (Char.ofNat b :: ·) <$> utf8Decode rest
    else if b < 0xC0 then none
    else if b < 0xE0 then
      match rest with
      | b2 :: rest2 =>
        if 0x80 ≤ b2 ∧ b2 < 0xC0 then
          (Char.ofNat ((b - 0xC0) * 64 + (b2 - 0x80)) :: ·) <$> utf8Decode rest2
        else none
      | _ => none
    else if b < 0xF0 then
      match rest with
      | b2 :: b3 :: rest2 =>
        if (0x80 ≤ b2 ∧ b2 < 0xC0) ∧ (0x80 ≤ b3 ∧ b3 < 0xC0) then
          (Char.ofNat ((b - 0xE0) * 4096 + (b2 - 0x80) * 64 + (b3 - 0x80)) :: ·) <$>
            utf8Decode rest2
        else none
      | _ => none
    else
      match rest with
      | b2 :: b3 :: b4 :: rest2 =>
        if (0x80 ≤ b2 ∧ b2 < 0xC0) ∧ (0x80 ≤ b3 ∧ b3 < 0xC0) ∧ (0x80 ≤ b4 ∧ b4 < 0xC0) then
          (Char.ofNat ((b - 0xF0) * 262144 + (b2 - 0x80) * 4096 + (b3 - 0x80) * 64 + (b4 - 0x80)) :: ·) <$>
            utf8Decode rest2
        else none
      | _ => none

def hexVal (c : Char) : Option Nat :=
  if '0' ≤ c ∧ c ≤ '9' then some (c.toNat - 48)
  else if 'a' ≤ c ∧ c ≤ 'f' then some (c.toNat - 97 + 10)
  else if 'A' ≤ c ∧ c ≤ 'F' then some (c.toNat - 65 + 10)
  else none

def unescapeChar (c : Char) : Option Char :=
  if c = '"' then some '"'
  else if c = '\\' then some '\\'
  else if c = '/' then some '/'
  else if c = 'n' then some '\n'
  else if c = 'r' then some '\r'
  else if c = 't' then some '\t'
  else if c = 'b' then some (Char.ofNat 8)
  else if c = 'f' then some (Char.ofNat 12)
  else none

/-- Scan a JSON string body up to its closing quote, unescaping as we go;
returns the decoded content and the characters after the closing quote. -/
def scanJSONString : List Char → Option (List Char × List Char)
  | [] => none
  | '"' :: rest => some ([], rest)
  | '\\' :: 'u' :: h1 :: h2 :: h3 :: h4 :: rest => do
    let n1 ← hexVal h1
    let n2 ← hexVal h2
    let n3 ← hexVal h3
    let n4 ← hexVal h4
    let (s, r) ← scanJSONString rest
    some (Char.ofNat (n1 * 4096 + n2 * 256 + n3 * 16 + n4) :: s, r)
  | '\\' :: e :: rest => do
    let c ← unescapeChar e
    let (s, r) ← scanJSONString rest
    some (c :: s, r)
  | c :: rest => do
    let (s, r) ← scanJSONString rest
    some (c :: s, r)

def dropLeading : List Char → List Char → Option (List Char)
  | [], l => some l
  | _ :: _, [] => none
  | p :: ps, c :: cs => if p = c then dropLeading ps cs else none

def jsonObjOpen : List Char := Char.ofNat 123 :: "\"redirect\":\"".data

def jsonParseOAuthState (chars : List Char) : Option OAuthState := do
  let rest ← dropLeading jsonObjOpen chars
  let (content, rest2) ← scanJSONString rest
  match rest2 with
  | [c] => if c = Char.ofNat 125 then some ⟨String.mk content⟩ else none
  | _ => none

/-- The callback handler's decode of the state parameter: base64url-decode
then JSON-parse into OAuthState (either failure means a 401). -/
def decodeOAuthState (s : String) : Option OAuthState := do
  let bytes ← base64RawUrlDecode s
  let chars ← utf8Decode bytes
  jsonParseOAuthState chars

/-! ## Request identity context (from src/unnamed/part_000, package auth)

The gorilla/context request-scoped map is modelled as a record of three
optional team values plus the authenticated flag; `context.GetOk` becomes
Option access.  `GetTeam` is translated from the source file. -/

structure RequestContext where
  authenticated : Option Bool
  teamName : Option String
  teamID : Option Int
  isAdmin : Option Bool

/-- GetTeam from the source: reads the three team keys from the
request-scoped context; if any one is missing it returns
("", 0, false, false), otherwise the three values with found = true. -/
def GetTeam (r : RequestContext) : String × Int × Bool × Bool :=
  let namePresent := r.teamName.isSome
  let idPresent := r.teamID.isSome
  let adminPresent := r.isAdmin.isSome
  if !(namePresent && idPresent && adminPresent) then
    ("", 0, false, false)
  else
    (r.teamName.getD "", r.teamID.getD 0, r.isAdmin.getD false, true)

/-- Modelled from the spec: `IsAuthenticated` (its source file is absent;
only WrapHandler's test is present): reads the propagated authenticated
flag from the request-scoped context, false when the key is absent. -/
def IsAuthenticated (r : RequestContext) : Bool :=
  r.authenticated.getD false

/-! ## Authorization middleware (CheckAuthorizationHandler)

The handler's source file is absent from the sources (only its test,
check_authorization_handler_test.go, is present), so it is modelled from
the spec, section 4.7, composed with the real `GetTeam` above. -/

structure HResp where
  status : Nat
  body : String
deriving DecidableEq

/-- The pluggable rejection callback: what it writes for 401 and for 403. -/
structure Rejector where
  unauthorized : HResp
  forbidden : HResp

/-- The rejector used by the tests: http.Error(w, "nope", code). -/
def nopeRejector : Rejector :=
  ⟨⟨401, "nope\n"⟩, ⟨403, "nope\n"⟩⟩

/-- atc.DefaultTeamName, the service's built-in default team. -/
def DefaultTeamName : String := "main"

/-- Modelled from the spec: `CheckAuthorizationHandler` (source file absent;
behavior from spec section 4.7 and its test).  `handler` is the wrapped
business handler as a function from the request body to the response body;
the request context has already been populated by the propagation stage. -/
def CheckAuthorizationHandler (handler : String → String) (rejector : Rejector)
    (requestedTeam : String) (ctx : RequestContext) (reqBody : String) : HResp :=
  if !(IsAuthenticated ctx) then rejector.unauthorized
  else
    let t := GetTeam ctx
    if !t.2.2.2 && requestedTeam == DefaultTeamName then ⟨200, handler reqBody⟩
    else if t.1 == requestedTeam then ⟨200, handler reqBody⟩
    else rejector.forbidden

/-! ## Verifier composition (from src/github/verifier_basket.go)

A verifier's outcome is its (verified, err) pair; a hashicorp multierror
value is modelled as the list of the messages it aggregates (`none` is the
nil error).  `VerifierBasket.Verify` is translated from the source. -/

structure VResult where
  verified : Bool
  err : Option String
deriving DecidableEq

/-- multierror.Append on a possibly-nil accumulated error. -/
def multierrorAppend : Option (List String) → String → Option (List String)
  | none, e => some [e]
  | some l, e => some (l ++ [e])

/-- The loop of VerifierBasket.Verify: on error, append it and continue;
on (true, nil), return (true, nil) immediately; when the list is exhausted,
return false with the accumulated errors. -/
def verifyAux : List VResult → Option (List String) → Bool × Option (List String)
  | [], errs => (false, errs)
  | r :: rest, errs =>
    match r.err with
    | some e => verifyAux rest (multierrorAppend errs e)
    | none => if r.verified then (true, none) else verifyAux rest errs

structure VerifierBasket where
  verifiers : List VResult
deriving DecidableEq

def VerifierBasket.Verify (vb : VerifierBasket) : Bool × Option (List String) :=
  verifyAux vb.verifiers none

/-! ## Token codec (Session Claims)

Modelled from the spec, section 4.1 (the codec's source file is absent):
the RSA signature is symbolic — a signed token records which key signed it,
and verification against key k accepts exactly the tokens signed with k
and not yet expired. -/

structure SessionClaims where
  teamName : String
  teamID : Int
  isAdmin : Bool
  exp : Nat
deriving DecidableEq

structure SignedToken where
  claims : SessionClaims
  sigKey : Nat
deriving DecidableEq

/-- Modelled from the spec: Sign(claims, expiry) — symbolic asymmetric
signature: the token carries its claims and the identity of the signing
key pair. -/
def Sign (privKey : Nat) (claims : SessionClaims) : SignedToken :=
  ⟨claims, privKey⟩

inductive TokenError
  | invalidSignature
  | expired
deriving DecidableEq

/-- Modelled from the spec: Verify(token) of the token codec — fails with
InvalidSignature unless the token was signed by the key pair being checked
against, and with Expired when exp has passed. -/
def VerifyToken (key : Nat) (now : Nat) (t : SignedToken) : Except TokenError SessionClaims :=
  if t.sigKey ≠ key then Except.error TokenError.invalidSignature
  else if t.claims.exp ≤ now then Except.error TokenError.expired
  else Except.ok t.claims

/-- Compact serialization of a signed token (the JWT text carried inside
the cookie after "Bearer "). -/
def serializeToken (t : SignedToken) : String :=
  "v1." ++ toString t.sigKey ++ "." ++ toString t.claims.teamID ++ "." ++
    (if t.claims.isAdmin then "1" else "0") ++ "." ++ toString t.claims.exp ++ "." ++
    t.claims.teamName

/-- auth.CookieName. -/
def CookieName : String := "ATC-Authorization"

/-- auth.CookieAge (24 hours), in seconds. -/
def CookieAge : Nat := 24 * 60 * 60

/-! ## keyFunc (from src/oauth_handler.go)

The jwt-go token's resolved signing method, and the key-lookup callback
that pins verification to the RSA family. -/

inductive SigningMethod
  | RS256 | RS384 | RS512
  | HS256 | HS384 | HS512
  | ES256 | ES384 | ES512
deriving DecidableEq

/-- Whether the method is an instance of jwt.SigningMethodRSA. -/
def SigningMethod.isRSA : SigningMethod → Bool
  | .RS256 | .RS384 | .RS512 => true
  | _ => false

structure RSAPrivateKey where
  n : Nat
deriving DecidableEq

/-- key.Public(): the symbolic public half of the key pair. -/
def RSAPrivateKey.publicKey (k : RSAPrivateKey) : Nat := k.n

/-- A parsed jwt token as seen by the key-lookup callback: its resolved
signing method and its header's alg string. -/
structure JWTToken where
  method : SigningMethod
  alg : String
deriving DecidableEq

/-- keyFunc from the source: refuses to hand out the public key unless
token.Method is *jwt.SigningMethodRSA. -/
def keyFunc (key : RSAPrivateKey) (token : JWTToken) : Except String Nat :=
  if token.method.isRSA then Except.ok key.publicKey
  else Except.error ("Unexpected signing method: " ++ token.alg)

/-! ## Providers (from src/provider/provider.go)

A provider is modelled by its authorization-URL builder together with the
outcomes of its Exchange and Verify operations (the fakes used by the
handler tests configure exactly these outcomes). -/

structure OAuth2Token where
  accessToken : String
deriving DecidableEq

structure ProviderM where
  authCodeURL : String → String
  exchangeResult : Except String OAuth2Token
  verifyResult : Bool × Option String

structure CookieM where
  name : String
  value : String
  expires : Nat
deriving DecidableEq

/-- auth.OAuthStateCookie. -/
def OAuthStateCookie : String := "_concourse_oauth_state"

/-! ## OAuth begin handler (from src/oauth_begin_handler.go) -/

structure BeginRequest where
  providerName : String
  redirect : String

structure BeginResponse where
  status : Nat
  cookies : List CookieM
  location : Option String

/-- OAuthBeginHandler.ServeHTTP from the source: resolve the provider (404
on miss), marshal and base64url-encode the CSRF state built from the
redirect form value (marshalling a one-string-field struct cannot fail, so
the 500 branch is dead), set the state cookie to the encoded state, and
redirect (307) to the provider's auth-code URL built from that same
encoded state. -/
def OAuthBeginHandler.ServeHTTP (providers : List (String × ProviderM)) (now : Nat)
    (r : BeginRequest) : BeginResponse :=
  match providers.lookup r.providerName with
  | none => ⟨404, [], none⟩
  | some p =>
    let encodedState := encodeOAuthState ⟨r.redirect⟩
    ⟨307, [⟨OAuthStateCookie, encodedState, now + CookieAge⟩],
      some (p.authCodeURL encodedState)⟩

/-! ## OAuth callback handler

The handler's source file is absent (only its test is in the sources), so
it is modelled from the spec, section 4.5, with the decode/codec models
above.  The outcome records the exchange call count so that
"ExchangeCode was never invoked" is expressible, and keeps the signed
token embedded in the cookie so that its verification is expressible. -/

structure CallbackRequest where
  providerName : String
  stateParam : String
  code : String
  stateCookie : Option String

structure CallbackOutcome where
  status : Nat
  cookies : List CookieM
  body : String
  redirectLocation : Option String
  exchangeCallCount : Nat
  signedToken : Option SignedToken
deriving DecidableEq

def errOutcome (status : Nat) (calls : Nat) : CallbackOutcome :=
  ⟨status, [], "", none, calls, none⟩

/-- The team resolved for the callback (name, id, admin flag come from the
team/provider resolution context). -/
structure TeamInfo where
  name : String
  id : Int
  admin : Bool

/-- Modelled from the spec: `OAuthCallbackHandler` (source file absent;
behavior from spec section 4.5 and the handler's test).  Go's FormValue
returns "" for a missing state query parameter, so the state parameter is
a plain string; a missing CSRF cookie is `none`.  Steps in order: provider
lookup (404), cookie presence and byte-equality with the state parameter
(401), state decode (401), code exchange (500 on error), identity
verification (500 on error, 401 on false), then claims signing, the
session cookie, and redirect-or-body. -/
def OAuthCallbackHandler (providers : List (String × ProviderM)) (signingKey : Nat)
    (team : TeamInfo) (now : Nat) (r : CallbackRequest) : CallbackOutcome :=
  match providers.lookup r.providerName with
  | none => errOutcome 404 0
  | some p =>
    match r.stateCookie with
    | none => errOutcome 401 0
    | some cookieVal =>
      if cookieVal ≠ r.stateParam then errOutcome 401 0
      else
        match decodeOAuthState r.stateParam with
        | none => errOutcome 401 0
        | some st =>
          match p.exchangeResult with
          | Except.error _ => errOutcome 500 1
          | Except.ok _ =>
            match p.verifyResult with
            | (_, some _) => errOutcome 500 1
            | (false, none) => errOutcome 401 1
            | (true, none) =>
              let exp := now + CookieAge
              let claims : SessionClaims := ⟨team.name, team.id, team.admin, exp⟩
              let tok := Sign signingKey claims
              let value := "Bearer " ++ serializeToken tok
              let cookie : CookieM := ⟨CookieName, value, exp⟩
              if st.redirect ≠ "" then
                ⟨307, [cookie], "", some st.redirect, 1, some tok⟩
              else
                ⟨200, [cookie], value ++ "\n", none, 1, some tok⟩

/-! ## Helper lemmas -/

/-- Folding multierror.Append over a list of messages. -/
def mAppendAll : Option (List String) → List String → Option (List String)
  | acc, [] => acc
  | acc, e :: es => mAppendAll (multierrorAppend acc e) es

theorem mAppendAll_some (m l : List String) :
    mAppendAll (some m) l = some (m ++ l) := by
  induction l generalizing m with
  | nil => simp [mAppendAll]
  | cons e es ih => simp [mAppendAll, multierrorAppend, ih]

theorem mAppendAll_none_of_ne (l : List String) (h : l ≠ []) :
    mAppendAll none l = some l := by
  cases l with
  | nil => exact absurd rfl h
  | cons e es => simp [mAppendAll, multierrorAppend, mAppendAll_some]

theorem verifyAux_no_success (results : List VResult)
    (h : ∀ r ∈ results, r.err = none → r.verified = false) (acc : Option (List String)) :
    verifyAux results acc = (false, mAppendAll acc (results.filterMap VResult.err)) := by
  induction results generalizing acc with
  | nil => simp [verifyAux, mAppendAll]
  | cons r rest ih =>
    have hrest : ∀ x ∈ rest, x.err = none → x.verified = false :=
      fun x hx => h x (List.mem_cons_of_mem r hx)
    cases hre : r.err with
    | some e =>
      simp [verifyAux, hre, List.filterMap_cons, mAppendAll, ih hrest]
    | none =>
      have hrv : r.verified = false := h r (List.mem_cons_self r rest) hre
      simp [verifyAux, hre, hrv, List.filterMap_cons, ih hrest]

theorem verifyAux_first_success (pre post : List VResult) (s : VResult)
    (hs : s.verified = true) (hserr : s.err = none)
    (hpre : ∀ r ∈ pre, r.verified = false) (acc : Option (List String)) :
    verifyAux (pre ++ s :: post) acc = (true, none) := by
  induction pre generalizing acc with
  | nil => simp [verifyAux, hserr, hs]
  | cons r rest ih =>
    have hrest : ∀ x ∈ rest, x.verified = false :=
      fun x hx => hpre x (List.mem_cons_of_mem r hx)
    have hrv : r.verified = false := hpre r (List.mem_cons_self r rest)
    cases hre : r.err with
    | some e => simp [verifyAux, hre, ih hrest]
    | none => simp [verifyAux, hre, hrv, ih hrest]

/-! ## Claims about VerifierBasket.Verify (src/github/verifier_basket.go) -/

/-- Claim C3: when no verifier in the ordered list returns (true, nil),
VerifierBasket.Verify returns (false, nil) if zero verifiers errored, and
otherwise (false, err) where err aggregates, in order, the text of every
individual error that was returned — including when only some of the
verifiers errored. -/
theorem claim_C3_basket_failure_aggregation (vb : VerifierBasket)
    (h : ∀ r ∈ vb.verifiers, r.err = none → r.verified = false) :
    vb.Verify.fst = false ∧
    (vb.verifiers.filterMap VResult.err = [] → vb.Verify.snd = none) ∧
    (vb.verifiers.filterMap VResult.err ≠ [] →
      vb.Verify.snd = some (vb.verifiers.filterMap VResult.err)) ∧
    (∀ r ∈ vb.verifiers, ∀ e, r.err = some e →
      ∃ l, vb.Verify.snd = some l ∧ e ∈ l) := by
  have hv := verifyAux_no_success vb.verifiers h none
  refine ⟨?_, ?_, ?_, ?_⟩
  · simp only [VerifierBasket.Verify, hv]
  · intro he
    simp only [VerifierBasket.Verify, hv, he]
    rfl
  · intro he
    simp only [VerifierBasket.Verify, hv, mAppendAll_none_of_ne _ he]
  · intro r hr e hre
    have hmem : e ∈ vb.verifiers.filterMap VResult.err :=
      List.mem_filterMap.mpr ⟨r, hr, hre⟩
    have hne : vb.verifiers.filterMap VResult.err ≠ [] := by
      intro hnil
      exact absurd (hnil ▸ hmem) (List.not_mem_nil e)
    exact ⟨_, by simp only [VerifierBasket.Verify, hv, mAppendAll_none_of_ne _ hne], hmem⟩

/-- Witness for claim C3: two verifiers, the first erroring with
"first error", the second returning (false, nil). -/
theorem claim_C3_witness :
    (VerifierBasket.mk [⟨false, some "first error"⟩, ⟨false, none⟩]).Verify.fst = false ∧
    ((VerifierBasket.mk [⟨false, some "first error"⟩, ⟨false, none⟩]).verifiers.filterMap
        VResult.err = [] →
      (VerifierBasket.mk [⟨false, some "first error"⟩, ⟨false, none⟩]).Verify.snd = none) ∧
    ((VerifierBasket.mk [⟨false, some "first error"⟩, ⟨false, none⟩]).verifiers.filterMap
        VResult.err ≠ [] →
      (VerifierBasket.mk [⟨false, some "first error"⟩, ⟨false, none⟩]).Verify.snd =
        some ((VerifierBasket.mk [⟨false, some "first error"⟩, ⟨false, none⟩]).verifiers.filterMap
          VResult.err)) ∧
    (∀ r ∈ (VerifierBasket.mk [⟨false, some "first error"⟩, ⟨false, none⟩]).verifiers,
      ∀ e, r.err = some e →
        ∃ l, (VerifierBasket.mk [⟨false, some "first error"⟩, ⟨false, none⟩]).Verify.snd =
          some l ∧ e ∈ l) :=
  claim_C3_basket_failure_aggregation
    (VerifierBasket.mk [⟨false, some "first error"⟩, ⟨false, none⟩]) (by decide)

/-- Claim C4: if some verifier returns (true, nil) and every verifier
before it returned false (with or without an error), the basket returns
(true, nil), whatever the successful verifier's position, the prior
errors, and the verifiers after it. -/
theorem claim_C4_basket_success_wins (pre post : List VResult) (s : VResult)
    (hs : s.verified = true) (hserr : s.err = none)
    (hpre : ∀ r ∈ pre, r.verified = false) :
    (VerifierBasket.mk (pre ++ s :: post)).Verify = (true, none) := by
  simp only [VerifierBasket.Verify]
  exact verifyAux_first_success pre post s hs hserr hpre none

/-- Witness for claim C4: an erroring verifier, then the success, then a
trailing erroring verifier. -/
theorem claim_C4_witness :
    (VerifierBasket.mk ([⟨false, some "first error"⟩] ++ ⟨true, none⟩ ::
      [⟨false, some "second error"⟩])).Verify = (true, none) :=
  claim_C4_basket_success_wins [⟨false, some "first error"⟩] [⟨false, some "second error"⟩]
    ⟨true, none⟩ rfl rfl (by decide)

/-! ## Claim about GetTeam (src/unnamed/part_000) -/

/-- Claim C10: GetTeam reports found = true exactly when the team-name,
team-ID and is-admin values are all present in the request context; if any
one is missing it returns ("", 0, false, false). -/
theorem claim_C10_get_team_all_or_nothing (r : RequestContext) :
    ((GetTeam r).2.2.2 = true ↔
      r.teamName.isSome ∧ r.teamID.isSome ∧ r.isAdmin.isSome) ∧
    ((r.teamName = none ∨ r.teamID = none ∨ r.isAdmin = none) →
      GetTeam r = ("", 0, false, false)) := by
  obtain ⟨a, tn, ti, ia⟩ := r
  cases tn <;> cases ti <;> cases ia <;> simp [GetTeam]

/-- Witness for claim C10: a context carrying a team name and admin flag
but no team ID reports exactly ("", 0, false, false). -/
theorem claim_C10_witness :
    (((GetTeam ⟨some true, some "some-team", none, some true⟩).2.2.2 = true ↔
      (some "some-team").isSome ∧ (none : Option Int).isSome ∧ (some true).isSome) ∧
    (((some "some-team" : Option String) = none ∨ (none : Option Int) = none ∨
        (some true : Option Bool) = none) →
      GetTeam ⟨some true, some "some-team", none, some true⟩ = ("", 0, false, false))) :=
  claim_C10_get_team_all_or_nothing ⟨some true, some "some-team", none, some true⟩

/-! ## Claim about keyFunc (src/oauth_handler.go) -/

/-- Claim C6: the jwt key-lookup callback returns an error — never the
public key — for every token whose signing method is not in the RSA
family, and hands out the public key only for RSA-method tokens. -/
theorem claim_C6_key_lookup_pins_rsa (key : RSAPrivateKey) (token : JWTToken) :
    (token.method.isRSA = false →
      keyFunc key token = Except.error ("Unexpected signing method: " ++ token.alg)) ∧
    (∀ pk, keyFunc key token = Except.ok pk →
      token.method.isRSA = true ∧ pk = key.publicKey) := by
  constructor
  · intro h
    simp [keyFunc, h]
  · intro pk h
    by_cases hm : token.method.isRSA
    · simp [keyFunc, hm] at h
      exact ⟨hm, h.symm⟩
    · simp [keyFunc, hm] at h

/-- Witness for claim C6: an HS256 (symmetric) token is refused. -/
theorem claim_C6_witness :
    keyFunc ⟨5⟩ ⟨SigningMethod.HS256, "HS256"⟩ =
      Except.error ("Unexpected signing method: " ++ "HS256") :=
  (claim_C6_key_lookup_pins_rsa ⟨5⟩ ⟨SigningMethod.HS256, "HS256"⟩).1 (by decide)

/-! ## Claim about the begin handler (src/oauth_begin_handler.go) -/

/-- A sample provider for witnesses: a URL builder that embeds the state,
a successful exchange, and a successful verification. -/
def sampleProvider : ProviderM :=
  ⟨fun s => "https://example.test/auth?state=" ++ s,
    Except.ok ⟨"some-access-token"⟩, (true, none)⟩

/-- Claim C8: for every begin request naming a known provider the handler
responds 307, and the CSRF state cookie's value is exactly the string
passed as the state parameter to the provider's authorization URL — namely
the unpadded base64url encoding of the JSON-marshalled OAuthState built
from the request's redirect query parameter. -/
theorem claim_C8_begin_state_cookie_matches (providers : List (String × ProviderM))
    (now : Nat) (r : BeginRequest) (p : ProviderM)
    (hp : providers.lookup r.providerName = some p) :
    OAuthBeginHandler.ServeHTTP providers now r =
      ⟨307, [⟨OAuthStateCookie, encodeOAuthState ⟨r.redirect⟩, now + CookieAge⟩],
        some (p.authCodeURL (encodeOAuthState ⟨r.redirect⟩))⟩ := by
  simp [OAuthBeginHandler.ServeHTTP, hp]

/-- Witness for claim C8: a known provider and an empty redirect; the
encoded state evaluates to the base64url text of the marshalled state. -/
theorem claim_C8_witness :
    OAuthBeginHandler.ServeHTTP [("b", sampleProvider)] 1000 ⟨"b", ""⟩ =
      ⟨307, [⟨OAuthStateCookie, encodeOAuthState ⟨""⟩, 1000 + CookieAge⟩],
        some (sampleProvider.authCodeURL (encodeOAuthState ⟨""⟩))⟩ ∧
    encodeOAuthState ⟨""⟩ = "eyJyZWRpcmVjdCI6IiJ9" :=
  ⟨claim_C8_begin_state_cookie_matches [("b", sampleProvider)] 1000 ⟨"b", ""⟩
    sampleProvider rfl, by decide⟩

/-! ## Claim about the authorization middleware -/

/-- Claim C1: with the request context populated by the propagation stage,
the authorization middleware rejects unauthenticated requests with 401 via
the rejection callback regardless of team claims; allows (running the
wrapped handler on the request body) when no team claim was found and the
requested team is the default team name; allows when the claims' team name
equals the requested team; and otherwise rejects with 403 via the
rejection callback. -/
theorem claim_C1_authorization_decision (requestedTeam : String) (ctx : RequestContext)
    (handler : String → String) (body : String) :
    (IsAuthenticated ctx = false →
      CheckAuthorizationHandler handler nopeRejector requestedTeam ctx body =
        ⟨401, "nope\n"⟩) ∧
    (IsAuthenticated ctx = true → (GetTeam ctx).2.2.2 = false →
      requestedTeam = DefaultTeamName →
      CheckAuthorizationHandler handler nopeRejector requestedTeam ctx body =
        ⟨200, handler body⟩) ∧
    (IsAuthenticated ctx = true →
      ¬((GetTeam ctx).2.2.2 = false ∧ requestedTeam = DefaultTeamName) →
      (GetTeam ctx).1 = requestedTeam →
      CheckAuthorizationHandler handler nopeRejector requestedTeam ctx body =
        ⟨200, handler body⟩) ∧
    (IsAuthenticated ctx = true →
      ¬((GetTeam ctx).2.2.2 = false ∧ requestedTeam = DefaultTeamName) →
      (GetTeam ctx).1 ≠ requestedTeam →
      CheckAuthorizationHandler handler nopeRejector requestedTeam ctx body =
        ⟨403, "nope\n"⟩) := by
  refine ⟨?_, ?_, ?_, ?_⟩
  · intro hauth
    simp [CheckAuthorizationHandler, hauth, nopeRejector]
  · intro hauth hfound hteam
    simp [CheckAuthorizationHandler, hauth, hfound, hteam]
  · intro hauth hcond hteam
    by_cases hf : (GetTeam ctx).2.2.2
    · by_cases hd : requestedTeam = DefaultTeamName <;>
        simp [CheckAuthorizationHandler, hauth, hf, hd, hteam]
    · have hd : requestedTeam ≠ DefaultTeamName := by
        intro hdd
        exact hcond ⟨Bool.eq_false_iff.mpr hf, hdd⟩
      simp [CheckAuthorizationHandler, hauth, Bool.eq_false_iff.mpr hf, hd, hteam]
  · intro hauth hcond hteam
    by_cases hf : (GetTeam ctx).2.2.2
    · by_cases hd : requestedTeam = DefaultTeamName
      · subst hd
        simp [CheckAuthorizationHandler, hauth, hf, hteam, nopeRejector]
      · simp [CheckAuthorizationHandler, hauth, hf, hd, hteam, nopeRejector]
    · have hd : requestedTeam ≠ DefaultTeamName := by
        intro hdd
        exact hcond ⟨Bool.eq_false_iff.mpr hf, hdd⟩
      simp [CheckAuthorizationHandler, hauth, Bool.eq_false_iff.mpr hf, hd, hteam,
        nopeRejector]

/-- Witness for claim C1: an authenticated request to team "some-team"
whose claims carry "some-team" reaches the wrapped handler, which prefixes
"simple " to the request body "hello". -/
theorem claim_C1_witness :
    CheckAuthorizationHandler (fun b => "simple " ++ b) nopeRejector "some-team"
      ⟨some true, some "some-team", some 1, some true⟩ "hello" =
      ⟨200, "simple " ++ "hello"⟩ :=
  (claim_C1_authorization_decision "some-team"
    ⟨some true, some "some-team", some 1, some true⟩ (fun b => "simple " ++ b)
    "hello").2.2.1 (by decide) (by decide) (by decide)

/-! ## Claims about the callback handler -/

theorem serializeToken_ne_empty (t : SignedToken) : serializeToken t ≠ "" := by
  unfold serializeToken
  intro h
  have h2 := congrArg String.length h
  simp [String.length_append] at h2
  exact absurd (by tauto : ("v1." : String).length = 0) (by decide)

/-- Claim C2: for every callback request to a known provider, when the
state query parameter (empty when missing, as with Go's FormValue) and the
CSRF-state cookie are not both present and byte-identical — the cookie
absent, the parameter missing, or the two unequal — the handler responds
401, sets no cookie, and never invokes the provider's Exchange operation. -/
theorem claim_C2_csrf_gate (providers : List (String × ProviderM)) (key : Nat)
    (team : TeamInfo) (now : Nat) (r : CallbackRequest) (p : ProviderM)
    (hp : providers.lookup r.providerName = some p)
    (hcsrf : ¬(r.stateParam ≠ "" ∧ r.stateCookie = some r.stateParam)) :
    (OAuthCallbackHandler providers key team now r).status = 401 ∧
    (OAuthCallbackHandler providers key team now r).cookies = [] ∧
    (OAuthCallbackHandler providers key team now r).exchangeCallCount = 0 := by
  unfold OAuthCallbackHandler
  rw [hp]
  cases hc : r.stateCookie with
  | none => simp [errOutcome]
  | some cv =>
    by_cases hne : cv = r.stateParam
    · subst hne
      have hempty : r.stateParam = "" := by
        by_contra hne2
        exact hcsrf ⟨hne2, hc⟩
      have hdec : decodeOAuthState "" = none := rfl
      simp [hempty, hdec, errOutcome]
    · simp [hne, errOutcome]

/-- Witness for claim C2: a known provider, a well-formed state parameter,
and no CSRF cookie at all. -/
theorem claim_C2_witness :
    (OAuthCallbackHandler [("b", sampleProvider)] 7 ⟨"some-team", 1, true⟩ 1000
      ⟨"b", encodeOAuthState ⟨""⟩, "some-code", none⟩).status = 401 ∧
    (OAuthCallbackHandler [("b", sampleProvider)] 7 ⟨"some-team", 1, true⟩ 1000
      ⟨"b", encodeOAuthState ⟨""⟩, "some-code", none⟩).cookies = [] ∧
    (OAuthCallbackHandler [("b", sampleProvider)] 7 ⟨"some-team", 1, true⟩ 1000
      ⟨"b", encodeOAuthState ⟨""⟩, "some-code", none⟩).exchangeCallCount = 0 :=
  claim_C2_csrf_gate [("b", sampleProvider)] 7 ⟨"some-team", 1, true⟩ 1000
    ⟨"b", encodeOAuthState ⟨""⟩, "some-code", none⟩ sampleProvider rfl (by decide)

/-- Claim C5: a callback that passes the CSRF check, the code exchange and
identity verification sets exactly one cookie, named ATC-Authorization,
whose value is "Bearer " followed by the (non-empty) token text, whose
expiry is now + cookie age, and whose embedded token verifies against the
process's signing key with an exp claim equal to the cookie's expiry. -/
theorem claim_C5_success_sets_signed_cookie (providers : List (String × ProviderM))
    (key : Nat) (team : TeamInfo) (now : Nat) (r : CallbackRequest) (p : ProviderM)
    (st : OAuthState) (tk : OAuth2Token)
    (hp : providers.lookup r.providerName = some p)
    (hck : r.stateCookie = some r.stateParam)
    (hst : decodeOAuthState r.stateParam = some st)
    (hex : p.exchangeResult = Except.ok tk)
    (hv : p.verifyResult = (true, none)) :
    (OAuthCallbackHandler providers key team now r).cookies =
      [⟨CookieName,
        "Bearer " ++ serializeToken (Sign key ⟨team.name, team.id, team.admin, now + CookieAge⟩),
        now + CookieAge⟩] ∧
    serializeToken (Sign key ⟨team.name, team.id, team.admin, now + CookieAge⟩) ≠ "" ∧
    VerifyToken key now (Sign key ⟨team.name, team.id, team.admin, now + CookieAge⟩) =
      Except.ok ⟨team.name, team.id, team.admin, now + CookieAge⟩ ∧
    (Sign key ⟨team.name, team.id, team.admin, now + CookieAge⟩).claims.exp =
      now + CookieAge := by
  refine ⟨?_, serializeToken_ne_empty _, ?_, rfl⟩
  · simp only [OAuthCallbackHandler, hp, hck, hst, hex, hv]
    by_cases h0 : st.redirect = "" <;> simp [h0]
  · simp [VerifyToken, Sign, CookieAge]

/-- Witness for claim C5: provider "b" succeeds end to end on a matching
encoded empty-redirect state. -/
theorem claim_C5_witness :
    (OAuthCallbackHandler [("b", sampleProvider)] 7 ⟨"some-team", 1, true⟩ 1000
      ⟨"b", encodeOAuthState ⟨""⟩, "some-code", some (encodeOAuthState ⟨""⟩)⟩).cookies =
      [⟨CookieName,
        "Bearer " ++ serializeToken (Sign 7 ⟨"some-team", 1, true, 1000 + CookieAge⟩),
        1000 + CookieAge⟩] ∧
    serializeToken (Sign 7 ⟨"some-team", 1, true, 1000 + CookieAge⟩) ≠ "" ∧
    VerifyToken 7 1000 (Sign 7 ⟨"some-team", 1, true, 1000 + CookieAge⟩) =
      Except.ok ⟨"some-team", 1, true, 1000 + CookieAge⟩ ∧
    (Sign 7 ⟨"some-team", 1, true, 1000 + CookieAge⟩).claims.exp = 1000 + CookieAge :=
  claim_C5_success_sets_signed_cookie [("b", sampleProvider)] 7 ⟨"some-team", 1, true⟩
    1000 ⟨"b", encodeOAuthState ⟨""⟩, "some-code", some (encodeOAuthState ⟨""⟩)⟩
    sampleProvider ⟨""⟩ ⟨"some-access-token"⟩ rfl rfl (by decide) rfl rfl

/-- Claim C7: at the identity-verification step of the callback, Verify
returning (false, nil) yields 401 with no cookie set, and Verify returning
(false, err) with a non-nil error yields 500 with no cookie set. -/
theorem claim_C7_verify_denial_and_failure (providers : List (String × ProviderM))
    (key : Nat) (team : TeamInfo) (now : Nat) (r : CallbackRequest) (p : ProviderM)
    (st : OAuthState) (tk : OAuth2Token)
    (hp : providers.lookup r.providerName = some p)
    (hck : r.stateCookie = some r.stateParam)
    (hst : decodeOAuthState r.stateParam = some st)
    (hex : p.exchangeResult = Except.ok tk) :
    (p.verifyResult = (false, none) →
      (OAuthCallbackHandler providers key team now r).status = 401 ∧
      (OAuthCallbackHandler providers key team now r).cookies = []) ∧
    (∀ e, p.verifyResult = (false, some e) →
      (OAuthCallbackHandler providers key team now r).status = 500 ∧
      (OAuthCallbackHandler providers key team now r).cookies = []) := by
  constructor
  · intro hv
    simp [OAuthCallbackHandler, hp, hck, hst, hex, hv, errOutcome]
  · intro e hv
    simp [OAuthCallbackHandler, hp, hck, hst, hex, hv, errOutcome]

/-- A provider whose identity verification denies: Verify = (false, nil). -/
def sampleDenyProvider : ProviderM :=
  ⟨fun s => s, Except.ok ⟨"some-access-token"⟩, (false, none)⟩

/-- A provider whose identity verification errors: Verify = (false, "nope"). -/
def sampleErrProvider : ProviderM :=
  ⟨fun s => s, Except.ok ⟨"some-access-token"⟩, (false, some "nope")⟩

/-- Witness for claim C7: the denying provider gives 401 without a cookie,
and the erroring provider gives 500 without a cookie. -/
theorem claim_C7_witness :
    ((sampleDenyProvider.verifyResult = (false, none) →
      (OAuthCallbackHandler [("b", sampleDenyProvider)] 7 ⟨"some-team", 1, true⟩ 1000
        ⟨"b", encodeOAuthState ⟨""⟩, "some-code", some (encodeOAuthState ⟨""⟩)⟩).status = 401 ∧
      (OAuthCallbackHandler [("b", sampleDenyProvider)] 7 ⟨"some-team", 1, true⟩ 1000
        ⟨"b", encodeOAuthState ⟨""⟩, "some-code", some (encodeOAuthState ⟨""⟩)⟩).cookies = []) ∧
    (∀ e, sampleDenyProvider.verifyResult = (false, some e) →
      (OAuthCallbackHandler [("b", sampleDenyProvider)] 7 ⟨"some-team", 1, true⟩ 1000
        ⟨"b", encodeOAuthState ⟨""⟩, "some-code", some (encodeOAuthState ⟨""⟩)⟩).status = 500 ∧
      (OAuthCallbackHandler [("b", sampleDenyProvider)] 7 ⟨"some-team", 1, true⟩ 1000
        ⟨"b", encodeOAuthState ⟨""⟩, "some-code", some (encodeOAuthState ⟨""⟩)⟩).cookies = [])) ∧
    ((sampleErrProvider.verifyResult = (false, none) →
      (OAuthCallbackHandler [("b", sampleErrProvider)] 7 ⟨"some-team", 1, true⟩ 1000
        ⟨"b", encodeOAuthState ⟨""⟩, "some-code", some (encodeOAuthState ⟨""⟩)⟩).status = 401 ∧
      (OAuthCallbackHandler [("b", sampleErrProvider)] 7 ⟨"some-team", 1, true⟩ 1000
        ⟨"b", encodeOAuthState ⟨""⟩, "some-code", some (encodeOAuthState ⟨""⟩)⟩).cookies = []) ∧
    (∀ e, sampleErrProvider.verifyResult = (false, some e) →
      (OAuthCallbackHandler [("b", sampleErrProvider)] 7 ⟨"some-team", 1, true⟩ 1000
        ⟨"b", encodeOAuthState ⟨""⟩, "some-code", some (encodeOAuthState ⟨""⟩)⟩).status = 500 ∧
      (OAuthCallbackHandler [("b", sampleErrProvider)] 7 ⟨"some-team", 1, true⟩ 1000
        ⟨"b", encodeOAuthState ⟨""⟩, "some-code", some (encodeOAuthState ⟨""⟩)⟩).cookies = [])) :=
  ⟨claim_C7_verify_denial_and_failure [("b", sampleDenyProvider)] 7 ⟨"some-team", 1, true⟩
      1000 ⟨"b", encodeOAuthState ⟨""⟩, "some-code", some (encodeOAuthState ⟨""⟩)⟩
      sampleDenyProvider ⟨""⟩ ⟨"some-access-token"⟩ rfl rfl (by decide) rfl,
    claim_C7_verify_denial_and_failure [("b", sampleErrProvider)] 7 ⟨"some-team", 1, true⟩
      1000 ⟨"b", encodeOAuthState ⟨""⟩, "some-code", some (encodeOAuthState ⟨""⟩)⟩
      sampleErrProvider ⟨""⟩ ⟨"some-access-token"⟩ rfl rfl (by decide) rfl⟩

/-- Claim C9: after a fully successful verification, a state carrying a
non-empty redirect path makes the handler redirect there, while an empty
redirect path makes it write the bearer token string into the response
body. -/
theorem claim_C9_redirect_or_token_body (providers : List (String × ProviderM))
    (key : Nat) (team : TeamInfo) (now : Nat) (r : CallbackRequest) (p : ProviderM)
    (st : OAuthState) (tk : OAuth2Token)
    (hp : providers.lookup r.providerName = some p)
    (hck : r.stateCookie = some r.stateParam)
    (hst : decodeOAuthState r.stateParam = some st)
    (hex : p.exchangeResult = Except.ok tk)
    (hv : p.verifyResult = (true, none)) :
    (st.redirect ≠ "" →
      (OAuthCallbackHandler providers key team now r).status = 307 ∧
      (OAuthCallbackHandler providers key team now r).redirectLocation =
        some st.redirect) ∧
    (st.redirect = "" →
      (OAuthCallbackHandler providers key team now r).redirectLocation = none ∧
      (OAuthCallbackHandler providers key team now r).body =
        "Bearer " ++
          serializeToken (Sign key ⟨team.name, team.id, team.admin, now + CookieAge⟩) ++
          "\n") := by
  constructor
  · intro h0
    simp [OAuthCallbackHandler, hp, hck, hst, hex, hv, h0]
  · intro h0
    simp [OAuthCallbackHandler, hp, hck, hst, hex, hv, h0]

/-- Witness for claim C9: the state with redirect "/" produces a 307 to
"/", and the state with an empty redirect writes the bearer value. -/
theorem claim_C9_witness :
    (((⟨"/"⟩ : OAuthState).redirect ≠ "" →
      (OAuthCallbackHandler [("b", sampleProvider)] 7 ⟨"some-team", 1, true⟩ 1000
        ⟨"b", encodeOAuthState ⟨"/"⟩, "some-code", some (encodeOAuthState ⟨"/"⟩)⟩).status = 307 ∧
      (OAuthCallbackHandler [("b", sampleProvider)] 7 ⟨"some-team", 1, true⟩ 1000
        ⟨"b", encodeOAuthState ⟨"/"⟩, "some-code", some (encodeOAuthState ⟨"/"⟩)⟩).redirectLocation =
        some (⟨"/"⟩ : OAuthState).redirect) ∧
    ((⟨"/"⟩ : OAuthState).redirect = "" →
      (OAuthCallbackHandler [("b", sampleProvider)] 7 ⟨"some-team", 1, true⟩ 1000
        ⟨"b", encodeOAuthState ⟨"/"⟩, "some-code", some (encodeOAuthState ⟨"/"⟩)⟩).redirectLocation = none ∧
      (OAuthCallbackHandler [("b", sampleProvider)] 7 ⟨"some-team", 1, true⟩ 1000
        ⟨"b", encodeOAuthState ⟨"/"⟩, "some-code", some (encodeOAuthState ⟨"/"⟩)⟩).body =
        "Bearer " ++ serializeToken (Sign 7 ⟨"some-team", 1, true, 1000 + CookieAge⟩) ++ "\n")) ∧
    (((⟨""⟩ : OAuthState).redirect ≠ "" →
      (OAuthCallbackHandler [("b", sampleProvider)] 7 ⟨"some-team", 1, true⟩ 1000
        ⟨"b", encodeOAuthState ⟨""⟩, "some-code", some (encodeOAuthState ⟨""⟩)⟩).status = 307 ∧
      (OAuthCallbackHandler [("b", sampleProvider)] 7 ⟨"some-team", 1, true⟩ 1000
        ⟨"b", encodeOAuthState ⟨""⟩, "some-code", some (encodeOAuthState ⟨""⟩)⟩).redirectLocation =
        some (⟨""⟩ : OAuthState).redirect) ∧
    ((⟨""⟩ : OAuthState).redirect = "" →
      (OAuthCallbackHandler [("b", sampleProvider)] 7 ⟨"some-team", 1, true⟩ 1000
        ⟨"b", encodeOAuthState ⟨""⟩, "some-code", some (encodeOAuthState ⟨""⟩)⟩).redirectLocation = none ∧
      (OAuthCallbackHandler [("b", sampleProvider)] 7 ⟨"some-team", 1, true⟩ 1000
        ⟨"b", encodeOAuthState ⟨""⟩, "some-code", some (encodeOAuthState ⟨""⟩)⟩).body =
        "Bearer " ++ serializeToken (Sign 7 ⟨"some-team", 1, true, 1000 + CookieAge⟩) ++ "\n")) :=
  ⟨claim_C9_redirect_or_token_body [("b", sampleProvider)] 7 ⟨"some-team", 1, true⟩ 1000
      ⟨"b", encodeOAuthState ⟨"/"⟩, "some-code", some (encodeOAuthState ⟨"/"⟩)⟩
      sampleProvider ⟨"/"⟩ ⟨"some-access-token"⟩ rfl rfl (by decide) rfl rfl,
    claim_C9_redirect_or_token_body [("b", sampleProvider)] 7 ⟨"some-team", 1, true⟩ 1000
      ⟨"b", encodeOAuthState ⟨""⟩, "some-code", some (encodeOAuthState ⟨""⟩)⟩
      sampleProvider ⟨""⟩ ⟨"some-access-token"⟩ rfl rfl (by decide) rfl rfl⟩
